import Mathlib

/-!
# Verification of the Niazi-POS-Sys transaction-recording core

A shallow embedding, in Lean 4, of the persistence logic of the POS
application: the database state (product catalog, sales, sale items,
purchases, purchase items, settings), the transaction-recording
operations (`models.create_sale`, `models.create_purchase`,
`POSWindow.complete_sale`, `PurchaseEntryDialog.save_purchase`), the
stock helpers (`DB.decrement_stock`, `DB.increment_stock`), the settings
accessors (`DB.get_setting` / `DB.set_setting`, `AppSettings.get/set`)
and the receipt formatter (`format_receipt_text`).

Python floats carrying money amounts are embedded as exact rationals
(`ℚ`); machine integers (quantities, stock) as `ℤ`; SQLite surrogate
ids as `ℕ`.  AUTOINCREMENT id assignment is embedded as
`max existing id + 1` (the sales/purchases tables have no delete path,
so this coincides with SQLite's behaviour).  Timestamp columns
(`created_at` / `updated_at` / `date_time`) are carried as opaque
strings supplied by the caller: the clock is an explicit input of the
embedding.
-/

namespace POS

/-! ## Decimal rendering and zero padding

Embeds Python's `f"{n:06d}"` / `f"{n:04d}"` formatting used for
invoice and purchase numbers (`models.create_sale`,
`models.create_purchase`, `PurchaseEntryDialog.save_purchase`,
`POSWindow.complete_sale`). -/

/-- The ASCII digit character for a digit value `d < 10`. -/
def digitChar (d : ℕ) : Char := Char.ofNat (48 + d)

/-- Big-endian decimal digit characters of `n`, with `fuel` bounding the
recursion depth (structural recursion so that the kernel can evaluate it). -/
def decCharsAux : ℕ → ℕ → List Char
  | 0, _ => []
  | fuel + 1, n =>
    if n = 0 then [] else decCharsAux fuel (n / 10) ++ [digitChar (n % 10)]

/-- The decimal representation of `n` as a list of characters
(Python's `str(n)` for a nonnegative integer). -/
def decChars (n : ℕ) : List Char :=
  if n = 0 then ['0'] else decCharsAux n n

/-- Left-pad a character list with `'0'` to width `w`
(Python's `f"{n:0wd}"` padding). -/
def zeroPad (w : ℕ) (l : List Char) : List Char :=
  List.replicate (w - l.length) '0' ++ l

/-- `str(n)` for `n : ℕ`. -/
def natStr (n : ℕ) : String := String.mk (decChars n)

/-- `str(z)` for `z : ℤ` (Python integer repr). -/
def intStr (z : ℤ) : String :=
  if z < 0 then String.mk ('-' :: decChars z.natAbs) else natStr z.natAbs

/-- The numeric value of a digit character. -/
def charVal (c : Char) : ℕ := c.toNat - 48

/-- Decode a big-endian list of digit characters back to a number. -/
def decodeChars (l : List Char) : ℕ :=
  l.foldl (fun a c => 10 * a + charVal c) 0

/-! ## Data model

Rows of the SQLite tables created by `database/db.py` (`_init_schema`) /
`database/schema.sql`.  Surrogate `id` columns of the line-item tables and
the timestamp bookkeeping columns (`created_at`, `updated_at`) are not
modelled: no claim mentions them and no operation reads them back. -/

/-- A row of the `products` table. -/
structure Product where
  id : ℕ
  barcode : Option String
  name : String
  category : String
  purchasePrice : ℚ
  salePrice : ℚ
  stockQty : ℤ
  taxPercent : ℚ
  reorderLevel : ℤ
  deriving Repr, DecidableEq

/-- A row of the `sales` table. -/
structure SaleRow where
  id : ℕ
  invoiceNo : Option String
  dateTime : String
  totalAmount : ℚ
  paymentMethod : String
  paidAmount : ℚ
  changeAmount : ℚ
  cashierId : Option ℕ
  deriving Repr, DecidableEq

/-- A row of the `sale_items` table. -/
structure SaleItemRow where
  saleId : ℕ
  productId : Option ℕ
  barcode : String
  description : String
  qty : ℤ
  unitPrice : ℚ
  lineTotal : ℚ
  deriving Repr, DecidableEq

/-- A row of the `purchases` table. -/
structure PurchaseRow where
  id : ℕ
  purchaseNo : Option String
  dateTime : String
  supplierId : Option ℕ
  supplierName : String
  totalAmount : ℚ
  deriving Repr, DecidableEq

/-- A row of the `purchase_items` table. -/
structure PurchaseItemRow where
  purchaseId : ℕ
  productId : Option ℕ
  barcode : String
  description : String
  qty : ℤ
  unitPrice : ℚ
  lineTotal : ℚ
  deriving Repr, DecidableEq

/-- The database state: the tables touched by the transaction-recording
and settings operations. -/
structure DBState where
  products : List Product
  sales : List SaleRow
  saleItems : List SaleItemRow
  purchases : List PurchaseRow
  purchaseItems : List PurchaseItemRow
  settings : List (String × String)
  deriving Repr, DecidableEq

/-- `SELECT IFNULL(MAX(id), 0) FROM sales`. -/
def maxSaleId (l : List SaleRow) : ℕ := l.foldr (fun r acc => max r.id acc) 0

/-- `SELECT IFNULL(MAX(id), 0) FROM purchases`. -/
def maxPurchaseId (l : List PurchaseRow) : ℕ := l.foldr (fun r acc => max r.id acc) 0

/-- A line item of the in-memory cart of `POSWindow` (`self.cart`) and of
the purchase-entry table: `{'product_id', 'barcode', 'name', 'qty',
'unit_price', 'line_total'}`. -/
structure CartItem where
  productId : Option ℕ
  barcode : String
  name : String
  qty : ℤ
  unitPrice : ℚ
  lineTotal : ℚ
  deriving Repr, DecidableEq

/-- Cart entry as built by `POSWindow._add_product_row` /
`add_item_manually` (`"line_total": unit_price * qty` at every
construction and update site, `pos_window.py` lines 321-332, 370-389,
436-437). -/
def mkCartItem (pid : Option ℕ) (barcode name : String) (price : ℚ) (qty : ℤ) :
    CartItem :=
  { productId := pid, barcode := barcode, name := name, qty := qty,
    unitPrice := price, lineTotal := price * qty }

/-! ## Stock helpers (`db.py` lines 270-283) -/

/-- `DB.decrement_stock(product_id, qty)`: returns immediately when
`product_id is None`, otherwise
`UPDATE products SET stock_qty = stock_qty - ? WHERE id=?`. -/
def decrementStock (productId : Option ℕ) (qty : ℤ) (prods : List Product) :
    List Product :=
  match productId with
  | none => prods
  | some pid =>
    prods.map fun r => if r.id = pid then { r with stockQty := r.stockQty - qty } else r

/-- `DB.increment_stock(product_id, qty, new_cost)`:
`UPDATE products SET stock_qty = stock_qty + ?` plus
`purchase_price = ?` when a new cost is supplied. -/
def incrementStock (productId : ℕ) (qty : ℤ) (newCost : Option ℚ)
    (prods : List Product) : List Product :=
  match newCost with
  | some cost =>
    prods.map fun r =>
      if r.id = productId then { r with stockQty := r.stockQty + qty, purchasePrice := cost } else r
  | none =>
    prods.map fun r =>
      if r.id = productId then { r with stockQty := r.stockQty + qty } else r

/-! ## Settings (`db.py` lines 156-165, `config/settings.py` lines 12-16) -/

/-- `DB.get_setting(key, default)`: `SELECT value FROM settings WHERE key=?`,
returning the stored value if a row exists and `default` otherwise. -/
def getSetting (key default : String) (settings : List (String × String)) : String :=
  match settings.find? (fun p => p.1 = key) with
  | some p => p.2
  | none => default

/-- A Python value passed to `AppSettings.set` / `DB.set_setting`. -/
inductive PyVal where
  | str (s : String)
  | int (z : ℤ)
  deriving Repr, DecidableEq

/-- Python's `str(value)` coercion applied by `AppSettings.set` and
`DB.set_setting`. -/
def pyStr : PyVal → String
  | .str s => s
  | .int z => intStr z

/-- `DB.set_setting(key, value)`:
`INSERT OR REPLACE INTO settings (key, value)` with `str(value)`;
`key` is the primary key, so the matching row (if any) is replaced. -/
def setSetting (key : String) (value : PyVal) (settings : List (String × String)) :
    List (String × String) :=
  settings.filter (fun p => p.1 ≠ key) ++ [(key, pyStr value)]

/-! ## Per-transaction stock folds -/

/-- The total quantity that the given line items carry for product id
`pid`: `Σ qty` over the items whose `product_id` references `pid`. -/
def qtyFor (items : List CartItem) (pid : ℕ) : ℤ :=
  ((items.filter fun it => decide (it.productId = some pid)).map (·.qty)).sum

/-- The stock updates of `models.create_sale` (lines 101-103): for each
item, `UPDATE products SET stock_qty = stock_qty - qty WHERE id =
product_id`, unconditionally (a NULL `product_id` matches no row). -/
def modelsSaleStockFold (items : List CartItem) (prods : List Product) :
    List Product :=
  items.foldl (fun ps it => decrementStock it.productId it.qty ps) prods

/-- The stock updates of `models.create_purchase` (lines 124-126):
`UPDATE products SET stock_qty = stock_qty + qty WHERE id = product_id`
per item, no cost update. -/
def modelsPurchaseStockFold (items : List CartItem) (prods : List Product) :
    List Product :=
  items.foldl
    (fun ps it => match it.productId with
      | some pid => incrementStock pid it.qty none ps
      | none => ps) prods

/-- One stock update of the `complete_sale` item loop: `if pid:` (falsy
`None` and `0` skipped) then `DB.decrement_stock(pid, qty)`. -/
def uiSaleStockStep (it : CartItem) (ps : List Product) : List Product :=
  match it.productId with
  | some pid => if pid ≠ 0 then decrementStock (some pid) it.qty ps else ps
  | none => ps

/-- The stock updates of the `complete_sale` item loop over a whole cart. -/
def uiSaleStockFold (cart : List CartItem) (prods : List Product) :
    List Product :=
  cart.foldl (fun ps it => uiSaleStockStep it ps) prods

/-- The stock updates of `save_purchase` (lines 252-259): `if prod_id:`
then `DB.increment_stock(prod_id, qty, new_cost=unit_price)`. -/
def uiPurchaseStockFold (items : List CartItem) (prods : List Product) :
    List Product :=
  items.foldl
    (fun ps it => match it.productId with
      | some pid => if pid ≠ 0 then incrementStock pid it.qty (some it.unitPrice) ps else ps
      | none => ps) prods

/-! ## `models.create_sale` / `models.create_purchase`
(`database/models.py` lines 81-128) -/

/-- The invoice string `f"INV-{next_id:06d}"` of `models.create_sale`. -/
def invInvoiceNo (nextId : ℕ) : String :=
  String.mk ("INV-".data ++ zeroPad 6 (decChars nextId))

/-- The purchase string `f"PUR-{next_id:06d}"` of `models.create_purchase`. -/
def purPurchaseNo (nextId : ℕ) : String :=
  String.mk ("PUR-".data ++ zeroPad 6 (decChars nextId))

/-- The row inserted into `sale_items` for one item of a sale. -/
def saleItemRowOf (saleId : ℕ) (it : CartItem) : SaleItemRow :=
  { saleId := saleId, productId := it.productId, barcode := it.barcode,
    description := it.name, qty := it.qty, unitPrice := it.unitPrice,
    lineTotal := it.lineTotal }

/-- The row inserted into `purchase_items` for one item of a purchase. -/
def purchaseItemRowOf (purchaseId : ℕ) (it : CartItem) : PurchaseItemRow :=
  { purchaseId := purchaseId, productId := it.productId, barcode := it.barcode,
    description := it.name, qty := it.qty, unitPrice := it.unitPrice,
    lineTotal := it.lineTotal }

/-- `models.create_sale(conn, items, payment_method, paid_amount,
change_amount, cashier_id)`: computes `next_id` as `IFNULL(MAX(id),0)+1`,
the invoice number `INV-{next_id:06d}`, `total_amount` as the sum of the
items' `line_total`, inserts the header, then for each item inserts a
`sale_items` row and runs `UPDATE products SET stock_qty = stock_qty - qty
WHERE id = product_id` (a no-op when `product_id` is NULL, matching no row).
`dt` is the wall-clock string.  Returns the new state and the invoice
number. -/
def modelsCreateSale (st : DBState) (items : List CartItem)
    (paymentMethod : String) (paidAmount changeAmount : ℚ)
    (cashierId : Option ℕ) (dt : String) : DBState × String :=
  let nextId := maxSaleId st.sales + 1
  let invoiceNo := invInvoiceNo nextId
  let totalAmount := (items.map (·.lineTotal)).sum
  let header : SaleRow :=
    { id := nextId, invoiceNo := some invoiceNo, dateTime := dt,
      totalAmount := totalAmount, paymentMethod := paymentMethod,
      paidAmount := paidAmount, changeAmount := changeAmount,
      cashierId := cashierId }
  let st' : DBState :=
    { st with
      sales := st.sales ++ [header]
      saleItems := st.saleItems ++ items.map (saleItemRowOf nextId)
      products := modelsSaleStockFold items st.products }
  (st', invoiceNo)

/-- `models.create_purchase(conn, supplier_id, supplier_name, items)`:
same shape as `models.create_sale`, with number `PUR-{next_id:06d}` and
`UPDATE products SET stock_qty = stock_qty + qty WHERE id = product_id`
per item (no cost-basis update in this path). -/
def modelsCreatePurchase (st : DBState) (supplierId : Option ℕ)
    (supplierName : String) (items : List CartItem) (dt : String) :
    DBState × String :=
  let nextId := maxPurchaseId st.purchases + 1
  let purchaseNo := purPurchaseNo nextId
  let totalAmount := (items.map (·.lineTotal)).sum
  let header : PurchaseRow :=
    { id := nextId, purchaseNo := some purchaseNo, dateTime := dt,
      supplierId := supplierId, supplierName := supplierName,
      totalAmount := totalAmount }
  let st' : DBState :=
    { st with
      purchases := st.purchases ++ [header]
      purchaseItems := st.purchaseItems ++ items.map (purchaseItemRowOf nextId)
      products := modelsPurchaseStockFold items st.products }
  (st', purchaseNo)

/-! ## `POSWindow.complete_sale` (`ui/pos_window.py` lines 449-545)

The sale path issues independent auto-committed statements and swallows
per-item exceptions (`except Exception: pass` around `add_sale_item` and
`decrement_stock`), so the embedding carries a fault assignment saying
which of those fallible steps succeed. -/

/-- The fallback invoice number of `complete_sale`
(`f"JSM-{utcnow:%Y%m%d}-{sale_id:06d}"`, line 483). -/
def jsmInvoiceNo (dateCode : String) (saleId : ℕ) : String :=
  String.mk ("JSM-".data ++ dateCode.data ++ "-".data ++ zeroPad 6 (decChars saleId))

/-- Which steps of `complete_sale` succeed: the header insert
(`DB.create_sale`, whose failure aborts the operation, lines 462-467),
and per item index the `add_sale_item` insert and the `decrement_stock`
update (whose failures are caught and ignored, lines 502-511). -/
structure SaleFaults where
  headerOk : Bool
  itemOk : ℕ → Bool
  stockOk : ℕ → Bool

/-- The all-steps-succeed fault assignment. -/
def noFaults : SaleFaults := { headerOk := true, itemOk := fun _ => true, stockOk := fun _ => true }

/-- The per-item loop of `complete_sale` (lines 494-511), starting at item
index `i`: a failed `add_sale_item` is skipped and the loop continues; the
stock decrement runs only `if pid:` (skipped for `None` and for a falsy id
`0`) and its failure is likewise ignored.  Returns the final
(`sale_items`, `products`) tables. -/
def runSaleItems (f : SaleFaults) (saleId : ℕ) :
    ℕ → List CartItem → List SaleItemRow × List Product →
    List SaleItemRow × List Product
  | _, [], acc => acc
  | i, it :: rest, (its, prods) =>
    let its' := if f.itemOk i then its ++ [saleItemRowOf saleId it] else its
    let prods' :=
      match it.productId with
      | some pid =>
        if pid ≠ 0 ∧ f.stockOk i then decrementStock (some pid) it.qty prods else prods
      | none => prods
    runSaleItems f saleId (i + 1) rest (its', prods')

/-- `POSWindow.complete_sale` under fault assignment `f`:
* an empty cart is refused (lines 450-452);
* if `paid < subtotal` and the cashier does not confirm, the sale is
  abandoned (lines 455-458);
* `change_amount = max(0, paid - subtotal)` (line 461);
* `DB.create_sale(None, subtotal, "CASH", paid, change_amount, cashier_id)`
  inserts the header with a NULL invoice number (id = AUTOINCREMENT
  `MAX(id)+1`); its failure aborts with the state unchanged;
* the NULL invoice is replaced by the fallback
  `f"JSM-{utcnow:%Y%m%d}-{sale_id:06d}"` (lines 477-489);
* the item loop `runSaleItems` stores line items and adjusts stock.
`dateCode` is the `%Y%m%d` clock string, `nowIso` the header timestamp.
Returns the new state and the invoice number (`none` when the sale was
refused or the header insert failed). -/
def completeSaleWith (f : SaleFaults) (st : DBState) (cart : List CartItem)
    (paid : ℚ) (confirmInsufficient : Bool) (cashierId : Option ℕ)
    (dateCode nowIso : String) : DBState × Option String :=
  if cart.isEmpty then (st, none)
  else
    let subtotal := (cart.map (·.lineTotal)).sum
    if paid < subtotal ∧ ¬confirmInsufficient then (st, none)
    else
      let changeAmount := max 0 (paid - subtotal)
      if ¬f.headerOk then (st, none)
      else
        let saleId := maxSaleId st.sales + 1
        let header : SaleRow :=
          { id := saleId, invoiceNo := none, dateTime := nowIso,
            totalAmount := subtotal, paymentMethod := "CASH",
            paidAmount := paid, changeAmount := changeAmount,
            cashierId := cashierId }
        let invoiceNo := jsmInvoiceNo dateCode saleId
        let sales' := (st.sales ++ [header]).map fun r =>
          if r.id = saleId then { r with invoiceNo := some invoiceNo } else r
        let res := runSaleItems f saleId 0 cart (st.saleItems, st.products)
        ({ st with sales := sales', saleItems := res.1, products := res.2 },
         some invoiceNo)

/-- `POSWindow.complete_sale` with every step succeeding. -/
def completeSale (st : DBState) (cart : List CartItem) (paid : ℚ)
    (confirmInsufficient : Bool) (cashierId : Option ℕ)
    (dateCode nowIso : String) : DBState × Option String :=
  completeSaleWith noFaults st cart paid confirmInsufficient cashierId dateCode nowIso

/-! ## `PurchaseEntryDialog.save_purchase` (`ui/purchase_entry.py`
lines 217-265), happy path (the wrapping `try` succeeds). -/

/-- The number of rows of `purchases` whose `date_time` starts with the
current UTC date — `SELECT COUNT(*) FROM purchases WHERE date_time LIKE
'{utcnow:%Y-%m-%d}%'` (line 226); the `LIKE 'date%'` match is a
character-prefix test. -/
def todayPurchaseCount (purchases : List PurchaseRow) (todayIso : String) : ℕ :=
  (purchases.filter (fun r => List.isPrefixOf todayIso.data r.dateTime.data)).length

/-- The purchase number `f"PCH-{todaycode}-{seq:04d}"` assigned by
`save_purchase` (lines 223-228): the sequence is the count of *today's*
purchase rows plus one. -/
def pchPurchaseNo (todayCode : String) (seq : ℕ) : String :=
  String.mk ("PCH-".data ++ todayCode.data ++ "-".data ++ zeroPad 4 (decChars seq))

/-- `PurchaseEntryDialog.save_purchase`:
* an empty item table is refused (lines 218-219);
* number `PCH-{today:%Y%m%d}-{todayCount+1:04d}`;
* `total` is the sum of the line totals;
* header insert, then per item a `purchase_items` insert and — `if prod_id:`
  (skipped for `None`/falsy `0`) — `DB.increment_stock(prod_id, qty,
  new_cost=unit_price)`, which also rewrites `purchase_price` (lines
  242-260).
`todayIso` (`%Y-%m-%d`, UTC) keys the per-day count, `todayCode`
(`%Y%m%d`, local) appears in the number, `nowIso` is the header
timestamp.  Returns the new state and the purchase number (`none` when
refused). -/
def savePurchase (st : DBState) (items : List CartItem)
    (supplierId : Option ℕ) (supplierName : String)
    (todayIso todayCode nowIso : String) : DBState × Option String :=
  if items.isEmpty then (st, none)
  else
    let seq := todayPurchaseCount st.purchases todayIso + 1
    let purchaseNo := pchPurchaseNo todayCode seq
    let total := (items.map (·.lineTotal)).sum
    let purchaseId := maxPurchaseId st.purchases + 1
    let header : PurchaseRow :=
      { id := purchaseId, purchaseNo := some purchaseNo, dateTime := nowIso,
        supplierId := supplierId, supplierName := supplierName,
        totalAmount := total }
    let st' : DBState :=
      { st with
        purchases := st.purchases ++ [header]
        purchaseItems := st.purchaseItems ++ items.map (purchaseItemRowOf purchaseId)
        products := uiPurchaseStockFold items st.products }
    (st', some purchaseNo)

/-! ## `format_receipt_text` (`reports/pdf_generator.py` lines 13-30)

The function reads the wall clock (`datetime.now()`) for its `Date:` line;
the embedding takes that clock reading as the explicit argument `now`.
Python's fixed-point float formatting `f"{x:.2f}"` is embedded as exact
decimal rendering of the rational with two digits, rounding halves
upward: the cent count is `⌊q·100 + 1/2⌋`, written on the numerator and
denominator so that it evaluates by integer arithmetic. -/

/-- `f"{s:>w}"`: left-pad with spaces to width `w`. -/
def padL (w : ℕ) (s : String) : String :=
  String.mk (List.replicate (w - s.data.length) ' ' ++ s.data)

/-- `f"{s:<w}"`: right-pad with spaces to width `w`. -/
def padR (w : ℕ) (s : String) : String :=
  String.mk (s.data ++ List.replicate (w - s.data.length) ' ')

/-- The rounded cent count of an amount: `⌊q·100 + 1/2⌋ =
(200·num + den) fdiv (2·den)`. -/
def centsOf (q : ℚ) : ℤ :=
  Int.fdiv (200 * q.num + q.den) (2 * q.den)

/-- `f"{x:.2f}"`: fixed-point rendering with two decimals. -/
def fmt2 (q : ℚ) : String :=
  let c := centsOf q
  let n := c.natAbs
  (if c < 0 then "-" else "") ++ natStr (n / 100) ++ "."
    ++ String.mk (zeroPad 2 (decChars (n % 100)))

/-- The 48-dash separator line. -/
def dashes48 : String := String.mk (List.replicate 48 '-')

/-- The column-header line
`f"{'No':<3} {'Item':<24} {'Qty':>3} {'Price':>8} {'Total':>8}"`. -/
def receiptHeaderLine : String :=
  padR 3 "No" ++ " " ++ padR 24 "Item" ++ " " ++ padL 3 "Qty" ++ " "
    ++ padL 8 "Price" ++ " " ++ padL 8 "Total"

/-- The per-item lines (`enumerate(cart_items, start=1)`): names longer
than 24 characters are truncated to 21 plus `"..."`. -/
def receiptItemLines : ℕ → List CartItem → List String
  | _, [] => []
  | idx, it :: rest =>
    let name :=
      if it.name.length ≤ 24 then it.name
      else String.mk (it.name.data.take 21 ++ "...".data)
    (padR 3 (natStr idx) ++ " " ++ padR 24 name ++ " " ++ padL 3 (intStr it.qty)
        ++ " " ++ padL 8 (fmt2 it.unitPrice) ++ " " ++ padL 8 (fmt2 it.lineTotal))
      :: receiptItemLines (idx + 1) rest

/-- The full list of receipt lines built by `format_receipt_text`. -/
def receiptLines (storeName invoiceNo : String) (cartItems : List CartItem)
    (subtotal paid change : ℚ) (footer now : String) : List String :=
  [storeName,
   "Invoice No: " ++ invoiceNo,
   "Date: " ++ now,
   dashes48,
   receiptHeaderLine,
   dashes48]
  ++ receiptItemLines 1 cartItems
  ++ [dashes48,
      padL 36 "Subtotal:" ++ " " ++ padL 8 (fmt2 subtotal),
      padL 36 "Paid:" ++ " " ++ padL 8 (fmt2 paid),
      padL 36 "Change:" ++ " " ++ padL 8 (fmt2 change),
      "",
      footer]

/-- `format_receipt_text(store_name, invoice_no, cart_items, subtotal,
paid, change, footer)` with the `datetime.now()` reading passed as
`now`: `"\n".join(lines)`. -/
def formatReceiptText (storeName invoiceNo : String) (cartItems : List CartItem)
    (subtotal paid change : ℚ) (footer now : String) : String :=
  String.intercalate "\n"
    (receiptLines storeName invoiceNo cartItems subtotal paid change footer now)

/-! ## Sale sessions (for the invoice-numbering claims) -/

/-- The arguments of one `models.create_sale` call in a session. -/
structure SaleReq where
  items : List CartItem
  paymentMethod : String
  paidAmount : ℚ
  changeAmount : ℚ
  cashierId : Option ℕ
  dt : String

/-- Run a sequence of `models.create_sale` calls on one connection,
collecting the assigned invoice numbers in order. -/
def runSaleSession (st : DBState) : List SaleReq → DBState × List String
  | [] => (st, [])
  | r :: rs =>
    let s1 := modelsCreateSale st r.items r.paymentMethod r.paidAmount
      r.changeAmount r.cashierId r.dt
    let s2 := runSaleSession s1.1 rs
    (s2.1, s1.2 :: s2.2)

/-! ## Concrete instances (for closed evaluations of the operations) -/

/-- A demo catalog product. -/
def demoProduct : Product :=
  { id := 1, barcode := some "111", name := "Soap", category := "Hygiene",
    purchasePrice := 80, salePrice := 100, stockQty := 10, taxPercent := 0,
    reorderLevel := 0 }

/-- A second demo catalog product. -/
def demoProduct2 : Product :=
  { id := 2, barcode := some "222", name := "Shampoo", category := "Hygiene",
    purchasePrice := 30, salePrice := 50, stockQty := 7, taxPercent := 0,
    reorderLevel := 0 }

/-- A demo database state with two products and no transactions. -/
def demoState : DBState :=
  { products := [demoProduct, demoProduct2], sales := [], saleItems := [],
    purchases := [], purchaseItems := [], settings := [] }

/-- A two-line cart over the demo products. -/
def demoCart : List CartItem :=
  [mkCartItem (some 1) "111" "Soap" 100 2,
   mkCartItem (some 2) "222" "Shampoo" 50 3]

/-- The fault assignment in which the `sale_items` insert of the second
line item (index 1) raises and every other step succeeds. -/
def secondItemInsertFails : SaleFaults :=
  { headerOk := true, itemOk := fun i => decide (i ≠ 1), stockOk := fun _ => true }

/-- A purchase row recorded the day before 2026-10-12. -/
def yesterdayPurchase : PurchaseRow :=
  { id := 1, purchaseNo := some "PCH-20261011-0001",
    dateTime := "2026-10-11T15:00:00", supplierId := none,
    supplierName := "Acme", totalAmount := 100 }

/-- A database state whose `purchases` table holds one row from the
previous day. -/
def yesterdayPurchaseState : DBState :=
  { products := [], sales := [], saleItems := [],
    purchases := [yesterdayPurchase], purchaseItems := [], settings := [] }

/-! # Theorems -/

/-! ## Decimal rendering -/

theorem charVal_digitChar {d : ℕ} (hd : d < 10) : charVal (digitChar d) = d := by
  interval_cases d <;> rfl

theorem foldl_decCharsAux (fuel : ℕ) :
    ∀ n, n ≤ fuel → ∀ a : ℕ,
      (decCharsAux fuel n).foldl (fun a c => 10 * a + charVal c) a
        = a * 10 ^ (decCharsAux fuel n).length + n := by
  induction fuel with
  | zero =>
    intro n hn a
    interval_cases n
    simp [decCharsAux]
  | succ fuel ih =>
    intro n hn a
    by_cases h0 : n = 0
    · subst h0; simp [decCharsAux]
    · have hdiv : n / 10 ≤ fuel := by
        have : n / 10 < n := Nat.div_lt_self (Nat.pos_of_ne_zero h0) (by norm_num)
        omega
      have hmod : n % 10 < 10 := Nat.mod_lt _ (by norm_num)
      simp only [decCharsAux, if_neg h0, List.foldl_append, List.foldl_cons,
        List.foldl_nil, List.length_append, List.length_cons, List.length_nil,
        ih (n / 10) hdiv a, charVal_digitChar hmod]
      have := Nat.div_add_mod n 10
      ring_nf
      omega

theorem decodeChars_decChars (n : ℕ) : decodeChars (decChars n) = n := by
  by_cases h0 : n = 0
  · subst h0; rfl
  · simp only [decodeChars, decChars, if_neg h0]
    simpa using foldl_decCharsAux n n le_rfl 0

theorem decodeChars_zeroPad (w : ℕ) (l : List Char) :
    decodeChars (zeroPad w l) = decodeChars l := by
  simp only [zeroPad, decodeChars, List.foldl_append]
  congr 1
  induction (w - l.length) with
  | zero => rfl
  | succ k ih => simpa [List.replicate_succ, charVal] using ih

/-- Zero-padded decimal rendering is injective: two distinct numbers never
produce the same padded string, whatever the pad width. -/
theorem zeroPad_decChars_injective (w : ℕ) {n m : ℕ}
    (h : zeroPad w (decChars n) = zeroPad w (decChars m)) : n = m := by
  have := congrArg decodeChars h
  rwa [decodeChars_zeroPad, decodeChars_zeroPad, decodeChars_decChars,
    decodeChars_decChars] at this

/-! ## Invoice numbering -/

theorem foldr_max_id (l : List SaleRow) (a : ℕ) :
    l.foldr (fun r acc => max r.id acc) a = max (maxSaleId l) a := by
  induction l with
  | nil => simp [maxSaleId]
  | cons r l ih => simp [maxSaleId, List.foldr_cons, ih, Nat.max_assoc]

theorem maxSaleId_append_single (l : List SaleRow) (h : SaleRow) :
    maxSaleId (l ++ [h]) = max (maxSaleId l) h.id := by
  rw [maxSaleId, List.foldr_append, foldr_max_id]
  show max (maxSaleId l) (max h.id 0) = max (maxSaleId l) h.id
  rw [Nat.max_zero]

theorem maxSaleId_modelsCreateSale (st : DBState) (items : List CartItem)
    (pm : String) (paid chg : ℚ) (cid : Option ℕ) (dt : String) :
    maxSaleId (modelsCreateSale st items pm paid chg cid dt).1.sales
      = maxSaleId st.sales + 1 := by
  show maxSaleId (st.sales ++ [_]) = _
  rw [maxSaleId_append_single]
  exact Nat.max_eq_right (Nat.le_succ _)

theorem invInvoiceNo_injective {n m : ℕ} (h : invInvoiceNo n = invInvoiceNo m) :
    n = m := by
  have hd : "INV-".data ++ zeroPad 6 (decChars n)
      = "INV-".data ++ zeroPad 6 (decChars m) := congrArg String.data h
  exact zeroPad_decChars_injective 6 (List.append_cancel_left hd)

/-- The invoice numbers assigned by a session of `models.create_sale`
calls are exactly `INV-` followed by the zero-padded successive values
`maxId+1, maxId+2, …`. -/
theorem runSaleSession_invoices (rs : List SaleReq) :
    ∀ st : DBState, (runSaleSession st rs).2
      = (List.range rs.length).map
          (fun i => invInvoiceNo (maxSaleId st.sales + i + 1)) := by
  induction rs with
  | nil => intro st; simp [runSaleSession]
  | cons r rs ih =>
    intro st
    have hfst : (modelsCreateSale st r.items r.paymentMethod r.paidAmount
        r.changeAmount r.cashierId r.dt).2 = invInvoiceNo (maxSaleId st.sales + 1) := rfl
    simp only [runSaleSession, List.length_cons, List.range_succ_eq_map,
      List.map_cons, List.map_map, hfst,
      ih, maxSaleId_modelsCreateSale]
    simp only [List.cons.injEq]
    refine ⟨by norm_num, ?_⟩
    apply List.map_congr_left
    intro i _
    simp only [Function.comp_apply]
    congr 1
    omega

/-! ## Stock-fold characterizations -/

theorem qtyFor_nil (pid : ℕ) : qtyFor [] pid = 0 := rfl

theorem qtyFor_cons (it : CartItem) (rest : List CartItem) (pid : ℕ) :
    qtyFor (it :: rest) pid
      = (if it.productId = some pid then it.qty else 0) + qtyFor rest pid := by
  by_cases h : it.productId = some pid <;> simp [qtyFor, List.filter_cons, h]

theorem modelsSaleStockFold_map (items : List CartItem) :
    ∀ prods : List Product,
      modelsSaleStockFold items prods
        = prods.map fun r => { r with stockQty := r.stockQty - qtyFor items r.id } := by
  induction items with
  | nil =>
    intro prods
    have h : ∀ r ∈ prods,
        (id r : Product) = { r with stockQty := r.stockQty - qtyFor [] r.id } := by
      intro r _
      simp [qtyFor_nil]
    rw [show modelsSaleStockFold [] prods = prods from rfl]
    conv_lhs => rw [← List.map_id prods]
    exact List.map_congr_left h
  | cons it rest ih =>
    intro prods
    rw [show modelsSaleStockFold (it :: rest) prods
        = modelsSaleStockFold rest (decrementStock it.productId it.qty prods) from rfl,
      ih]
    cases hp : it.productId with
    | none =>
      rw [show decrementStock none it.qty prods = prods from rfl]
      apply List.map_congr_left
      intro r _
      have hq : qtyFor (it :: rest) r.id = qtyFor rest r.id := by
        rw [qtyFor_cons, hp]; simp
      rw [hq]
    | some pid =>
      rw [show decrementStock (some pid) it.qty prods
          = prods.map (fun r =>
              if r.id = pid then { r with stockQty := r.stockQty - it.qty } else r)
        from rfl, List.map_map]
      apply List.map_congr_left
      intro r _
      by_cases hr : r.id = pid
      · have hq : qtyFor (it :: rest) r.id = it.qty + qtyFor rest r.id := by
          rw [qtyFor_cons, hp, if_pos (by rw [hr])]
        simp only [Function.comp_apply, if_pos hr, hq]
        congr 1
        rw [sub_sub]
      · have hq : qtyFor (it :: rest) r.id = qtyFor rest r.id := by
          rw [qtyFor_cons, hp, if_neg (fun hh => hr (Option.some.inj hh).symm)]
          simp
        simp only [Function.comp_apply, if_neg hr, hq]

theorem modelsPurchaseStockFold_map (items : List CartItem) :
    ∀ prods : List Product,
      modelsPurchaseStockFold items prods
        = prods.map fun r => { r with stockQty := r.stockQty + qtyFor items r.id } := by
  induction items with
  | nil =>
    intro prods
    have h : ∀ r ∈ prods,
        (id r : Product) = { r with stockQty := r.stockQty + qtyFor [] r.id } := by
      intro r _
      simp [qtyFor_nil]
    rw [show modelsPurchaseStockFold [] prods = prods from rfl]
    conv_lhs => rw [← List.map_id prods]
    exact List.map_congr_left h
  | cons it rest ih =>
    intro prods
    rw [show modelsPurchaseStockFold (it :: rest) prods
        = modelsPurchaseStockFold rest
            (match it.productId with
              | some pid => incrementStock pid it.qty none prods
              | none => prods) from rfl]
    cases hp : it.productId with
    | none =>
      show modelsPurchaseStockFold rest prods = _
      rw [ih]
      apply List.map_congr_left
      intro r _
      have hq : qtyFor (it :: rest) r.id = qtyFor rest r.id := by
        rw [qtyFor_cons, hp]; simp
      rw [hq]
    | some pid =>
      show modelsPurchaseStockFold rest (incrementStock pid it.qty none prods) = _
      rw [ih]
      rw [show incrementStock pid it.qty none prods
          = prods.map (fun r =>
              if r.id = pid then { r with stockQty := r.stockQty + it.qty } else r)
        from rfl, List.map_map]
      apply List.map_congr_left
      intro r _
      by_cases hr : r.id = pid
      · have hq : qtyFor (it :: rest) r.id = it.qty + qtyFor rest r.id := by
          rw [qtyFor_cons, hp, if_pos (by rw [hr])]
        simp only [Function.comp_apply, if_pos hr, hq]
        congr 1
        rw [add_assoc]
      · have hq : qtyFor (it :: rest) r.id = qtyFor rest r.id := by
          rw [qtyFor_cons, hp, if_neg (fun hh => hr (Option.some.inj hh).symm)]
          simp
        simp only [Function.comp_apply, if_neg hr, hq]

theorem pos_ids_map {prods : List Product} {f : Product → Product}
    (hf : ∀ r, (f r).id = r.id) (h : ∀ r ∈ prods, 0 < r.id) :
    ∀ r ∈ prods.map f, 0 < r.id := by
  intro r hr
  obtain ⟨s, hs, rfl⟩ := List.mem_map.mp hr
  rw [hf]
  exact h s hs

/-- Over a catalog whose ids are positive (as SQLite AUTOINCREMENT
guarantees), the guarded stock loop of `complete_sale` has the same
effect on `products` as the unguarded per-item UPDATEs of
`models.create_sale`. -/
theorem uiSaleStockFold_eq_models (items : List CartItem) :
    ∀ prods : List Product, (∀ r ∈ prods, 0 < r.id) →
      uiSaleStockFold items prods = modelsSaleStockFold items prods := by
  induction items with
  | nil => intro prods _; rfl
  | cons it rest ih =>
    intro prods hpos
    rw [show uiSaleStockFold (it :: rest) prods
        = uiSaleStockFold rest (uiSaleStockStep it prods) from rfl,
      show modelsSaleStockFold (it :: rest) prods
        = modelsSaleStockFold rest (decrementStock it.productId it.qty prods) from rfl]
    rw [uiSaleStockStep]
    cases hp : it.productId with
    | none =>
      show uiSaleStockFold rest prods = modelsSaleStockFold rest prods
      exact ih prods hpos
    | some pid =>
      show uiSaleStockFold rest
          (if pid ≠ 0 then decrementStock (some pid) it.qty prods else prods)
        = modelsSaleStockFold rest (decrementStock (some pid) it.qty prods)
      by_cases h0 : pid ≠ 0
      · rw [if_pos h0]
        exact ih _ (pos_ids_map (f := fun r =>
          if r.id = pid then { r with stockQty := r.stockQty - it.qty } else r)
          (fun r => by by_cases hr : r.id = pid <;> simp [hr]) hpos)
      · rw [if_neg h0]
        have hdec : decrementStock (some pid) it.qty prods = prods := by
          rw [show decrementStock (some pid) it.qty prods
              = prods.map (fun r =>
                  if r.id = pid then { r with stockQty := r.stockQty - it.qty } else r)
            from rfl]
          have h : ∀ r ∈ prods,
              (fun r : Product =>
                if r.id = pid then { r with stockQty := r.stockQty - it.qty } else r) r
                = id r := by
            intro r hr
            have : r.id ≠ pid := by
              have := hpos r hr
              omega
            simp [this]
          rw [List.map_congr_left h, List.map_id]
        rw [hdec]
        exact ih prods hpos

/-- Line items whose `product_id` is `None` do not contribute to the
stock loop of `complete_sale`. -/
theorem uiSaleStockFold_filter (cart : List CartItem) :
    ∀ prods : List Product,
      uiSaleStockFold cart prods
        = uiSaleStockFold (cart.filter fun it => it.productId.isSome) prods := by
  induction cart with
  | nil => intro prods; rfl
  | cons it rest ih =>
    intro prods
    cases hp : it.productId with
    | none =>
      rw [show uiSaleStockFold (it :: rest) prods
          = uiSaleStockFold rest (uiSaleStockStep it prods) from rfl]
      rw [uiSaleStockStep, hp]
      rw [show ((it :: rest).filter fun it => it.productId.isSome)
          = rest.filter fun it => it.productId.isSome from by
        simp [List.filter_cons, hp]]
      exact ih prods
    | some pid =>
      rw [show uiSaleStockFold (it :: rest) prods
          = uiSaleStockFold rest (uiSaleStockStep it prods) from rfl]
      rw [show ((it :: rest).filter fun it => it.productId.isSome)
          = it :: rest.filter fun it => it.productId.isSome from by
        simp [List.filter_cons, hp]]
      rw [show uiSaleStockFold (it :: (rest.filter fun it => it.productId.isSome)) prods
          = uiSaleStockFold (rest.filter fun it => it.productId.isSome)
              (uiSaleStockStep it prods) from rfl]
      exact ih (uiSaleStockStep it prods)

theorem uiPurchaseStockFold_proj (items : List CartItem) :
    ∀ prods : List Product, (∀ r ∈ prods, 0 < r.id) →
      (uiPurchaseStockFold items prods).map (fun r => (r.id, r.stockQty))
        = prods.map fun r => (r.id, r.stockQty + qtyFor items r.id) := by
  induction items with
  | nil =>
    intro prods _
    apply List.map_congr_left
    intro r _
    simp [qtyFor_nil]
  | cons it rest ih =>
    intro prods hpos
    rw [show uiPurchaseStockFold (it :: rest) prods
        = uiPurchaseStockFold rest
            (match it.productId with
              | some pid =>
                if pid ≠ 0 then incrementStock pid it.qty (some it.unitPrice) prods else prods
              | none => prods) from rfl]
    cases hp : it.productId with
    | none =>
      show (uiPurchaseStockFold rest prods).map _ = _
      rw [ih prods hpos]
      apply List.map_congr_left
      intro r _
      have hq : qtyFor (it :: rest) r.id = qtyFor rest r.id := by
        rw [qtyFor_cons, hp]; simp
      rw [hq]
    | some pid =>
      by_cases h0 : pid ≠ 0
      · show (uiPurchaseStockFold rest
            (if pid ≠ 0 then incrementStock pid it.qty (some it.unitPrice) prods else prods)).map _
          = _
        rw [if_pos h0]
        rw [show incrementStock pid it.qty (some it.unitPrice) prods
            = prods.map (fun r =>
                if r.id = pid
                then { r with stockQty := r.stockQty + it.qty, purchasePrice := it.unitPrice }
                else r) from rfl]
        rw [ih _ (pos_ids_map (fun r => by by_cases hr : r.id = pid <;> simp [hr]) hpos),
          List.map_map]
        apply List.map_congr_left
        intro r _
        by_cases hr : r.id = pid
        · have hq : qtyFor (it :: rest) r.id = it.qty + qtyFor rest r.id := by
            rw [qtyFor_cons, hp, if_pos (by rw [hr])]
          simp only [Function.comp_apply, if_pos hr, hq]
          rw [Prod.mk.injEq]
          exact ⟨rfl, by rw [add_assoc]⟩
        · have hq : qtyFor (it :: rest) r.id = qtyFor rest r.id := by
            rw [qtyFor_cons, hp, if_neg (fun hh => hr (Option.some.inj hh).symm)]
            simp
          simp only [Function.comp_apply, if_neg hr, hq]
      · show (uiPurchaseStockFold rest
            (if pid ≠ 0 then incrementStock pid it.qty (some it.unitPrice) prods else prods)).map _
          = _
        rw [if_neg h0]
        rw [ih prods hpos]
        apply List.map_congr_left
        intro r hr
        have hq : qtyFor (it :: rest) r.id = qtyFor rest r.id := by
          have hrid : r.id ≠ pid := by
            have := hpos r hr
            omega
          rw [qtyFor_cons, hp, if_neg (fun hh => hrid (Option.some.inj hh).symm)]
          simp
        rw [hq]

/-- The `products` component of `save_purchase` is the guarded stock fold
(both on the refused-empty path, where it is the identity, and on the
recorded path). -/
theorem savePurchase_products (st : DBState) (items : List CartItem)
    (supId : Option ℕ) (supName tIso tCode nIso : String) :
    (savePurchase st items supId supName tIso tCode nIso).1.products
      = uiPurchaseStockFold items st.products := by
  cases items with
  | nil => rfl
  | cons it rest => rfl

/-! ## `complete_sale` happy-path characterization -/

theorem runSaleItems_fst (sid : ℕ) (cart : List CartItem) :
    ∀ (i : ℕ) (its : List SaleItemRow) (prods : List Product),
      (runSaleItems noFaults sid i cart (its, prods)).1
        = its ++ cart.map (saleItemRowOf sid) := by
  induction cart with
  | nil => intro i its prods; simp [runSaleItems]
  | cons it rest ih =>
    intro i its prods
    rw [show runSaleItems noFaults sid i (it :: rest) (its, prods)
        = runSaleItems noFaults sid (i + 1) rest
            (its ++ [saleItemRowOf sid it],
             match it.productId with
              | some pid =>
                if pid ≠ 0 ∧ true then decrementStock (some pid) it.qty prods else prods
              | none => prods) from rfl]
    rw [ih]
    simp

theorem runSaleItems_snd (sid : ℕ) (cart : List CartItem) :
    ∀ (i : ℕ) (its : List SaleItemRow) (prods : List Product),
      (runSaleItems noFaults sid i cart (its, prods)).2
        = uiSaleStockFold cart prods := by
  induction cart with
  | nil => intro i its prods; rfl
  | cons it rest ih =>
    intro i its prods
    rw [show runSaleItems noFaults sid i (it :: rest) (its, prods)
        = runSaleItems noFaults sid (i + 1) rest
            (its ++ [saleItemRowOf sid it],
             match it.productId with
              | some pid =>
                if pid ≠ 0 ∧ true then decrementStock (some pid) it.qty prods else prods
              | none => prods) from rfl]
    rw [ih]
    rw [show uiSaleStockFold (it :: rest) prods
        = uiSaleStockFold rest (uiSaleStockStep it prods) from rfl]
    congr 1
    rw [uiSaleStockStep]
    cases hp : it.productId with
    | none => rfl
    | some pid => simp

/-- A non-refused `complete_sale` (non-empty cart; either the paid amount
covers the subtotal or the cashier confirms) appends one fully-determined
header row, stores one `sale_items` row per cart line, and applies the
guarded stock fold. -/
theorem completeSale_run (st : DBState) (cart : List CartItem) (paid : ℚ)
    (confirm : Bool) (cid : Option ℕ) (dc ni : String)
    (hne : cart ≠ [])
    (hpay : (cart.map (·.lineTotal)).sum ≤ paid ∨ confirm = true) :
    completeSale st cart paid confirm cid dc ni
      = ({ st with
            sales := List.map (fun r : SaleRow =>
                if r.id = maxSaleId st.sales + 1
                then { r with invoiceNo := some (jsmInvoiceNo dc (maxSaleId st.sales + 1)) }
                else r)
              (st.sales ++
                [({ id := maxSaleId st.sales + 1, invoiceNo := none,
                    dateTime := ni, totalAmount := (cart.map (·.lineTotal)).sum,
                    paymentMethod := "CASH", paidAmount := paid,
                    changeAmount := max 0 (paid - (cart.map (·.lineTotal)).sum),
                    cashierId := cid } : SaleRow)]),
            saleItems := st.saleItems ++ cart.map (saleItemRowOf (maxSaleId st.sales + 1)),
            products := uiSaleStockFold cart st.products },
         some (jsmInvoiceNo dc (maxSaleId st.sales + 1))) := by
  have hni : ¬(cart.isEmpty = true) := by
    cases cart with
    | nil => exact absurd rfl hne
    | cons a l => simp
  have hp2 : ¬(paid < (cart.map (·.lineTotal)).sum ∧ ¬(confirm = true)) := by
    rcases hpay with h | h
    · exact fun hc => absurd h (not_le.mpr hc.1)
    · exact fun hc => hc.2 h
  simp only [completeSale, completeSaleWith]
  rw [if_neg hni, if_neg hp2,
    if_neg (not_not_intro rfl : ¬¬(noFaults.headerOk = true))]
  rw [runSaleItems_fst, runSaleItems_snd]

/-! ## Claim theorems -/

/-- **C2**, counterexample: the number assigned by
`PurchaseEntryDialog.save_purchase` is not "(count of existing rows in the
corresponding table + 1)".  With one purchase row recorded the previous
day, the next purchase is numbered with sequence 1 (the per-day count plus
one), not 2 (the table row count plus one). -/
theorem purchase_no_not_row_count :
    (savePurchase yesterdayPurchaseState [mkCartItem none "333" "Rice" 50 2]
        none "Acme" "2026-10-12" "20261012" "2026-10-12T09:00:00").2
      = some (pchPurchaseNo "20261012" 1)
    ∧ pchPurchaseNo "20261012" 1
        ≠ pchPurchaseNo "20261012" (yesterdayPurchaseState.purchases.length + 1) := by
  constructor
  · rfl
  · decide

/-- **C2**, amended: `models.create_sale` assigns `INV-` plus the
zero-padded value `MAX(id)+1` (not the row count plus one, though the two
coincide while ids are contiguous); `save_purchase` assigns `PCH-` plus
the date plus the zero-padded per-day row count plus one; the invoice
numbers assigned by a session of `models.create_sale` calls carry strictly
increasing sequence values `maxId+1, maxId+2, …` and are pairwise
distinct. -/
theorem invoice_numbering :
    (∀ (st : DBState) (items : List CartItem) (pm : String) (paid chg : ℚ)
        (cid : Option ℕ) (dt : String),
        (modelsCreateSale st items pm paid chg cid dt).2
          = invInvoiceNo (maxSaleId st.sales + 1))
    ∧ (∀ (st : DBState) (rs : List SaleReq),
        (runSaleSession st rs).2
            = (List.range rs.length).map
                (fun i => invInvoiceNo (maxSaleId st.sales + i + 1))
          ∧ ((runSaleSession st rs).2).Pairwise (· ≠ ·))
    ∧ (∀ (st : DBState) (items : List CartItem) (supId : Option ℕ)
        (supName tIso tCode nIso : String), items ≠ [] →
        (savePurchase st items supId supName tIso tCode nIso).2
          = some (pchPurchaseNo tCode (todayPurchaseCount st.purchases tIso + 1))) := by
  refine ⟨fun st items pm paid chg cid dt => rfl, fun st rs => ?_, ?_⟩
  · refine ⟨runSaleSession_invoices rs st, ?_⟩
    rw [runSaleSession_invoices rs st]
    exact List.Pairwise.map _
      (fun a b hab heq => by have := invInvoiceNo_injective heq; omega)
      (List.pairwise_lt_range _)
  · intro st items supId supName tIso tCode nIso hne
    cases items with
    | nil => exact absurd rfl hne
    | cons it rest => rfl

/-- **C2**, witness: at a concrete state holding one purchase row from the
previous day, `save_purchase` assigns the per-day sequence (count of
today's rows, zero, plus one). -/
theorem invoice_numbering_witness :
    (savePurchase yesterdayPurchaseState [mkCartItem none "444" "Flour" 60 1]
        none "Acme" "2026-10-12" "20261012" "2026-10-12T10:00:00").2
      = some (pchPurchaseNo "20261012"
          (todayPurchaseCount yesterdayPurchaseState.purchases "2026-10-12" + 1))
    ∧ todayPurchaseCount yesterdayPurchaseState.purchases "2026-10-12" = 0 :=
  ⟨invoice_numbering.2.2 yesterdayPurchaseState _ none "Acme" "2026-10-12"
      "20261012" "2026-10-12T10:00:00" (by decide),
   by decide⟩

/-- **C3**: for every item list, the `total_amount` stored in the sale
header by `models.create_sale` equals the sum of the `line_total` values
of the `sale_items` rows it inserts (evaluated on the final state, after
every step of the operation). -/
theorem sale_total_amount :
    ∀ (st : DBState) (items : List CartItem) (pm : String) (paid chg : ℚ)
      (cid : Option ℕ) (dt : String),
      ((modelsCreateSale st items pm paid chg cid dt).1.sales.getLast?).map
          (·.totalAmount)
        = some ((((modelsCreateSale st items pm paid chg cid dt).1.saleItems.drop
            st.saleItems.length).map (·.lineTotal)).sum) := by
  intro st items pm paid chg cid dt
  have hsales : (modelsCreateSale st items pm paid chg cid dt).1.sales
      = st.sales ++
        [{ id := maxSaleId st.sales + 1,
           invoiceNo := some (invInvoiceNo (maxSaleId st.sales + 1)),
           dateTime := dt, totalAmount := (items.map (·.lineTotal)).sum,
           paymentMethod := pm, paidAmount := paid, changeAmount := chg,
           cashierId := cid }] := rfl
  have hitems : (modelsCreateSale st items pm paid chg cid dt).1.saleItems
      = st.saleItems ++ items.map (saleItemRowOf (maxSaleId st.sales + 1)) := rfl
  rw [hsales, hitems, List.getLast?_concat, List.drop_left, List.map_map]
  rfl

/-- **C6**: an empty item list is refused by both finalization paths —
`complete_sale` (under any fault assignment) and `save_purchase` return
with the database unchanged and create no header row. -/
theorem empty_cart_rejected :
    (∀ (f : SaleFaults) (st : DBState) (paid : ℚ) (confirm : Bool)
        (cid : Option ℕ) (dc ni : String),
        completeSaleWith f st [] paid confirm cid dc ni = (st, none))
    ∧ (∀ (st : DBState) (supId : Option ℕ) (supName tIso tCode nIso : String),
        savePurchase st [] supId supName tIso tCode nIso = (st, none)) :=
  ⟨fun _ _ _ _ _ _ _ => rfl, fun _ _ _ _ _ _ => rfl⟩

/-- **C7**: settings round-trip — writing a key with `set` (which stores
`str(value)`) and reading it with `get` returns the stored string form;
reading a key with no stored row returns the supplied default. -/
theorem settings_roundtrip :
    (∀ (s : List (String × String)) (k : String) (v : PyVal) (d : String),
        getSetting k d (setSetting k v s) = pyStr v)
    ∧ (∀ (s : List (String × String)) (k d : String),
        (∀ p ∈ s, p.1 ≠ k) → getSetting k d s = d) := by
  constructor
  · intro s k v d
    induction s with
    | nil => simp [getSetting, setSetting]
    | cons p rest ih =>
      by_cases h : p.1 = k
      · simpa [setSetting, List.filter_cons, h] using ih
      · simpa [getSetting, setSetting, List.filter_cons, h] using ih
  · intro s k d h
    have hf : s.find? (fun p => decide (p.1 = k)) = none :=
      List.find?_eq_none.mpr (fun p hp => by simpa using h p hp)
    simp [getSetting, hf]

/-- **C7**, witness: a concrete round-trip and a concrete default read. -/
theorem settings_roundtrip_witness :
    getSetting "store_name" "JADOON SHOPPING MART"
        (setSetting "store_name" (PyVal.str "My Store")
          [("low_stock_threshold", "5")])
      = "My Store"
    ∧ (∀ p ∈ [("low_stock_threshold", "5")], p.1 ≠ "store_name")
    ∧ getSetting "store_name" "JADOON SHOPPING MART"
        [("low_stock_threshold", "5")]
      = "JADOON SHOPPING MART" :=
  ⟨settings_roundtrip.1 [("low_stock_threshold", "5")] "store_name"
      (PyVal.str "My Store") "JADOON SHOPPING MART",
   by decide,
   settings_roundtrip.2 [("low_stock_threshold", "5")] "store_name"
      "JADOON SHOPPING MART" (by decide)⟩

/-- **C4**: per product, recording a sale subtracts exactly the summed
quantities of the line items referencing that product — for the
unguarded per-item UPDATEs of `models.create_sale` on any catalog, and
for the `complete_sale` loop on any catalog with positive ids. -/
theorem sale_stock_decrement :
    (∀ (st : DBState) (items : List CartItem) (pm : String) (paid chg : ℚ)
        (cid : Option ℕ) (dt : String),
        (modelsCreateSale st items pm paid chg cid dt).1.products
          = st.products.map fun r =>
              { r with stockQty := r.stockQty - qtyFor items r.id })
    ∧ (∀ (st : DBState) (cart : List CartItem) (paid : ℚ) (confirm : Bool)
        (cid : Option ℕ) (dc ni : String),
        cart ≠ [] → ((cart.map (·.lineTotal)).sum ≤ paid ∨ confirm = true) →
        (∀ r ∈ st.products, 0 < r.id) →
        (completeSale st cart paid confirm cid dc ni).1.products
          = st.products.map fun r =>
              { r with stockQty := r.stockQty - qtyFor cart r.id }) := by
  constructor
  · intro st items pm paid chg cid dt
    show modelsSaleStockFold items st.products = _
    exact modelsSaleStockFold_map items st.products
  · intro st cart paid confirm cid dc ni hne hpay hpos
    rw [completeSale_run st cart paid confirm cid dc ni hne hpay]
    show uiSaleStockFold cart st.products = _
    rw [uiSaleStockFold_eq_models cart st.products hpos]
    exact modelsSaleStockFold_map cart st.products

/-- **C4**, witness: selling 2 units of a product priced 100.00 gives the
cart line `line_total = 200.00` and the completed sale decrements that
product's stock by exactly 2. -/
theorem sale_stock_decrement_witness :
    (mkCartItem (some 1) "111" "Soap" 100 2).lineTotal = 200
    ∧ ([mkCartItem (some 1) "111" "Soap" 100 2] : List CartItem) ≠ []
    ∧ (∀ r ∈ demoState.products, 0 < r.id)
    ∧ (completeSale demoState [mkCartItem (some 1) "111" "Soap" 100 2] 200 true
          none "20261012" "2026-10-12T09:00:00").1.products
        = demoState.products.map (fun r =>
            { r with stockQty := r.stockQty
                - qtyFor [mkCartItem (some 1) "111" "Soap" 100 2] r.id })
    ∧ qtyFor [mkCartItem (some 1) "111" "Soap" 100 2] 1 = 2 := by
  refine ⟨by norm_num [mkCartItem], by decide, by decide, ?_, by decide⟩
  exact sale_stock_decrement.2 demoState _ 200 true none "20261012"
    "2026-10-12T09:00:00" (by decide) (Or.inr rfl) (by decide)

/-- **C5**: per product, recording a purchase adds exactly the summed
quantities of the line items referencing that product — for
`models.create_purchase` on any catalog, and for `save_purchase` (whose
guarded loop also rewrites the cost basis, so the statement projects each
row to its id and stock) on any catalog with positive ids. -/
theorem purchase_stock_increment :
    (∀ (st : DBState) (supId : Option ℕ) (supName : String)
        (items : List CartItem) (dt : String),
        (modelsCreatePurchase st supId supName items dt).1.products
          = st.products.map fun r =>
              { r with stockQty := r.stockQty + qtyFor items r.id })
    ∧ (∀ (st : DBState) (items : List CartItem) (supId : Option ℕ)
        (supName tIso tCode nIso : String),
        (∀ r ∈ st.products, 0 < r.id) →
        ((savePurchase st items supId supName tIso tCode nIso).1.products).map
            (fun r => (r.id, r.stockQty))
          = st.products.map fun r => (r.id, r.stockQty + qtyFor items r.id)) := by
  constructor
  · intro st supId supName items dt
    show modelsPurchaseStockFold items st.products = _
    exact modelsPurchaseStockFold_map items st.products
  · intro st items supId supName tIso tCode nIso hpos
    rw [savePurchase_products]
    exact uiPurchaseStockFold_proj items st.products hpos

/-- **C5**, witness: purchasing 4 units of product 2 adds 4 to its
stock. -/
theorem purchase_stock_increment_witness :
    (∀ r ∈ demoState.products, 0 < r.id)
    ∧ ((savePurchase demoState [mkCartItem (some 2) "222" "Shampoo" 30 4]
          none "Acme" "2026-10-12" "20261012" "2026-10-12T09:00:00").1.products).map
        (fun r => (r.id, r.stockQty))
      = demoState.products.map (fun r =>
          (r.id, r.stockQty + qtyFor [mkCartItem (some 2) "222" "Shampoo" 30 4] r.id))
    ∧ qtyFor [mkCartItem (some 2) "222" "Shampoo" 30 4] 2 = 4 :=
  ⟨by decide,
   purchase_stock_increment.2 demoState _ none "Acme" "2026-10-12" "20261012"
     "2026-10-12T09:00:00" (by decide),
   by decide⟩

/-- **C9**: every recorded sale stores
`change_amount = max(0, paid − subtotal)`, which is never negative, also
when the cashier confirms a sale paid below the total. -/
theorem change_amount_max :
    ∀ (st : DBState) (cart : List CartItem) (paid : ℚ) (confirm : Bool)
      (cid : Option ℕ) (dc ni : String),
      cart ≠ [] → ((cart.map (·.lineTotal)).sum ≤ paid ∨ confirm = true) →
      ((completeSale st cart paid confirm cid dc ni).1.sales.getLast?).map
          (·.changeAmount)
          = some (max 0 (paid - (cart.map (·.lineTotal)).sum))
        ∧ (0:ℚ) ≤ max 0 (paid - (cart.map (·.lineTotal)).sum) := by
  intro st cart paid confirm cid dc ni hne hpay
  constructor
  · rw [completeSale_run st cart paid confirm cid dc ni hne hpay]
    simp
  · exact le_max_left 0 _

/-- **C9**, witness: a sale of subtotal 200 confirmed with only 50 paid
records change 0, not −150. -/
theorem change_amount_max_witness :
    ([mkCartItem (some 1) "111" "Soap" 100 2] : List CartItem) ≠ []
    ∧ ((completeSale demoState [mkCartItem (some 1) "111" "Soap" 100 2] 50 true
          none "20261012" "T").1.sales.getLast?).map (·.changeAmount)
        = some (max 0
            (50 - ([mkCartItem (some 1) "111" "Soap" 100 2].map (·.lineTotal)).sum))
    ∧ max (0:ℚ)
        (50 - ([mkCartItem (some 1) "111" "Soap" 100 2].map (·.lineTotal)).sum)
      = 0 := by
  refine ⟨by decide,
    (change_amount_max demoState _ 50 true none "20261012" "T" (by decide)
      (Or.inr rfl)).1, ?_⟩
  simp [mkCartItem]
  norm_num

/-- **C10**: ad-hoc line items leave inventory untouched —
`decrement_stock` is the identity when `product_id` is `None`, and the
`products` table after `complete_sale` is the same as if the cart had
contained only the items that reference a product. -/
theorem adhoc_items_frame :
    (∀ (q : ℤ) (prods : List Product), decrementStock none q prods = prods)
    ∧ (∀ (st : DBState) (cart : List CartItem) (paid : ℚ) (cid : Option ℕ)
        (dc ni : String),
        (completeSale st cart paid true cid dc ni).1.products
          = (completeSale st (cart.filter fun it => it.productId.isSome)
              paid true cid dc ni).1.products) := by
  constructor
  · intro q prods; rfl
  · intro st cart paid cid dc ni
    by_cases hc : cart = []
    · subst hc; rfl
    · by_cases hf : (cart.filter fun it => it.productId.isSome) = []
      · rw [completeSale_run st cart paid true cid dc ni hc (Or.inr rfl)]
        rw [show completeSale st (cart.filter fun it => it.productId.isSome)
              paid true cid dc ni = (st, none) from by rw [hf]; rfl]
        show uiSaleStockFold cart st.products = st.products
        rw [uiSaleStockFold_filter, hf]
        rfl
      · rw [completeSale_run st cart paid true cid dc ni hc (Or.inr rfl),
            completeSale_run st _ paid true cid dc ni hf (Or.inr rfl)]
        show uiSaleStockFold cart st.products
          = uiSaleStockFold (cart.filter fun it => it.productId.isSome) st.products
        exact uiSaleStockFold_filter cart st.products

/-- **C1**: evaluating `complete_sale` at the failing input — a two-line
sale whose second `sale_items` insert raises an exception that the loop
swallows (`except Exception: pass`, lines 504-506) — leaves the committed
header, the first line item, and both stock decrements in the database:
the post-failure state is not the pre-sale state, so the operation does
not roll back. -/
theorem partial_sale_persists :
    (completeSaleWith secondItemInsertFails demoState demoCart 500 true none
        "20261012" "2026-10-12T09:00:00").1.sales.length = 1
    ∧ (completeSaleWith secondItemInsertFails demoState demoCart 500 true none
        "20261012" "2026-10-12T09:00:00").1.saleItems.length = 1
    ∧ (completeSaleWith secondItemInsertFails demoState demoCart 500 true none
        "20261012" "2026-10-12T09:00:00").1.products.map (·.stockQty) = [8, 4]
    ∧ (completeSaleWith secondItemInsertFails demoState demoCart 500 true none
        "20261012" "2026-10-12T09:00:00").1 ≠ demoState
    ∧ demoState.sales = [] := by
  have h1 : (completeSaleWith secondItemInsertFails demoState demoCart 500 true
      none "20261012" "2026-10-12T09:00:00").1.sales.length = 1 := by
    norm_num [completeSaleWith, secondItemInsertFails, demoState, demoCart,
      demoProduct, demoProduct2, mkCartItem, maxSaleId]
  have h2 : (completeSaleWith secondItemInsertFails demoState demoCart 500 true
      none "20261012" "2026-10-12T09:00:00").1.saleItems.length = 1 := by
    norm_num [completeSaleWith, runSaleItems, secondItemInsertFails, demoState,
      demoCart, demoProduct, demoProduct2, mkCartItem, maxSaleId]
  have h3 : (completeSaleWith secondItemInsertFails demoState demoCart 500 true
      none "20261012" "2026-10-12T09:00:00").1.products.map (·.stockQty)
      = [8, 4] := by
    norm_num [completeSaleWith, runSaleItems, decrementStock,
      secondItemInsertFails, demoState, demoCart, demoProduct, demoProduct2,
      mkCartItem, maxSaleId]
  exact ⟨h1, h2, h3,
    fun heq => absurd (heq ▸ h1) (by decide), rfl⟩

/-- **C8**, counterexample: two `format_receipt_text` calls with identical
arguments (store name, invoice number, line items, subtotal, paid, change,
footer) but different wall-clock readings produce different output — the
function reads `datetime.now()` for its `Date:` line, so it is not a
function of those seven arguments alone. -/
theorem receipt_depends_on_clock :
    formatReceiptText "S" "INV-000001" [] 0 0 0 "Thanks" "2026-10-12 09:00:00"
      ≠ formatReceiptText "S" "INV-000001" [] 0 0 0 "Thanks"
          "2026-10-13 09:00:00" := by
  decide

/-- **C8**, amended: `format_receipt_text` is a pure function of its seven
arguments *and* the current date-time: two calls with identical arguments
and an identical clock reading produce identical text (and the embedding
is a plain function, so no state is modified); the named arguments appear
verbatim in the output's first three lines. -/
theorem receipt_deterministic :
    (∀ (store inv : String) (items : List CartItem) (sub paid chg : ℚ)
        (foot now now' : String), now = now' →
        formatReceiptText store inv items sub paid chg foot now
          = formatReceiptText store inv items sub paid chg foot now')
    ∧ (∀ (store inv : String) (items : List CartItem) (sub paid chg : ℚ)
        (foot now : String),
        (receiptLines store inv items sub paid chg foot now).take 3
          = [store, "Invoice No: " ++ inv, "Date: " ++ now]) := by
  constructor
  · intro store inv items sub paid chg foot now now' h
    rw [h]
  · intro store inv items sub paid chg foot now
    rfl

/-- **C8**, witness: a concrete call is reproduced exactly when the clock
reading is the same, and its first three lines carry the store name,
invoice number and date. -/
theorem receipt_deterministic_witness :
    (formatReceiptText "S" "INV-000001" [] 0 0 0 "Thanks" "2026-10-12 09:00:00"
        = formatReceiptText "S" "INV-000001" [] 0 0 0 "Thanks"
            "2026-10-12 09:00:00")
    ∧ (receiptLines "S" "INV-000001" [] 0 0 0 "Thanks"
          "2026-10-12 09:00:00").take 3
        = ["S", "Invoice No: INV-000001", "Date: 2026-10-12 09:00:00"] :=
  ⟨receipt_deterministic.1 "S" "INV-000001" [] 0 0 0 "Thanks"
      "2026-10-12 09:00:00" "2026-10-12 09:00:00" rfl,
   by decide⟩

end POS
